import Mathlib

/-!
Shallow embedding of the Tello drone controller (`src/main.py`) and proofs
about the properties its specification states.  Pure computations (the input
normalizer) are embedded over `ℚ`; the stateful parts (command slot, button
handler, telemetry cycle, connection worker) are embedded as explicit state
passing over a record of the controller's fields, with vehicle-link calls
recorded in a trace list.
-/

namespace Tello

/-- Constant `DRONE_SPEED = 100` (src/main.py line 22). -/
def DRONE_SPEED : Int := 100

/-- Constant `MOVEMENT_DISTANCE = 50` (src/main.py line 26). -/
def MOVEMENT_DISTANCE : Int := 50

/-- Constant `STICK_DEADZONE = 0.1` (src/main.py line 25). -/
def STICK_DEADZONE : ℚ := 1/10

/-- A call on the vehicle link (methods of the `Tello` object used by the
controller). -/
inductive DroneCall where
  | takeoff
  | land
  | rotate_clockwise (degrees : Int)
  | rotate_counter_clockwise (degrees : Int)
  | move_forward (distance : Int)
  | move_back (distance : Int)
  | move_left (distance : Int)
  | move_right (distance : Int)
  | move_up (distance : Int)
  | move_down (distance : Int)
  | emergency
  | connect
  | set_speed (v : Int)
  | streamoff
  | streamon
  | get_frame_read
  | send_rc_control (left_right forward_back up_down yaw : Int)
  deriving DecidableEq, Repr

/-- A value put on `blocking_command_queue`.  In the source the queue holds
whatever Python object the call site passes to `queue_command`:
a still-uninvoked bound method (`self.drone.takeoff`), or the value
*returned* by a maneuver call that was already executed at the call site
(`self.drone.rotate_clockwise(45)` evaluates the call first and passes its
result). -/
inductive QueuedValue where
  | callable (c : DroneCall)
  | returnValue (c : DroneCall)
  deriving DecidableEq, Repr

/-! ### The capacity-1 queue (`queue.Queue(1)`), sequential semantics -/

/-- Capacity of `blocking_command_queue = queue.Queue(1)` (line 60): capacity exactly 1. -/
def QUEUE_CAPACITY : Nat := 1

/-- Model of `Queue.get_nowait`: remove and return the front element if present
(`queue.Empty` is modelled by the `none` component; the caller's
`except queue.Empty: pass` ignores it). -/
def get_nowait (q : List α) : Option α × List α :=
  match q with
  | [] => (none, [])
  | x :: xs => (some x, xs)

/-- Predicate for when `Queue.put` blocks: its caller exactly when the queue already holds
`QUEUE_CAPACITY` items. -/
def put_blocks (q : List α) : Prop := QUEUE_CAPACITY ≤ q.length

instance (q : List α) : Decidable (put_blocks q) := by
  unfold put_blocks; infer_instance

/-- Model of `Queue.put` (the non-blocked case): append the item. -/
def put (x : α) (q : List α) : List α := q ++ [x]

/-- Model of `TelloDroneController.queue_command` (lines 475-482): non-blocking drain
of any pending item, then insert the new one. -/
def queue_command (c : α) (q : List α) : List α := put c (get_nowait q).2

/-! ### Joystick reads and controller state -/

/-- A snapshot of what `pygame` joystick getters return this tick. -/
structure Joystick where
  button : Nat → Bool
  hat0 : Int × Int
  axis : Nat → ℚ

/-- The mutable fields of `TelloDroneController` that the embedded code
touches, plus `calls`: the trace of vehicle-link calls issued so far by the
thread being modelled. -/
structure CtrlState where
  forward_back_input : Int
  left_right_input : Int
  up_down_input : Int
  yaw_input : Int
  emergency_triggered : Bool
  autopilot_running : Bool
  slot : List QueuedValue
  calls : List DroneCall

/-! ### Input normalizer -/

/-- Python `int()` applied to a rational: truncation toward zero. -/
def truncInt (q : ℚ) : Int := if q < 0 then -⌊-q⌋ else ⌊q⌋

/-- Model of `TelloDroneController.apply_deadzone` (lines 75-80). -/
def apply_deadzone (value : ℚ) (deadzone : ℚ := STICK_DEADZONE) : ℚ :=
  if |value| < deadzone then 0
  else (if 0 < value then 1 else -1) * ((|value| - deadzone) / (1 - deadzone))

/-- Model of `TelloDroneController.map_stick_to_input` (lines 82-85):
`int(self.apply_deadzone(stick_value) * 100)`. -/
def map_stick_to_input (stick_value : ℚ) (deadzone : ℚ := STICK_DEADZONE) : Int :=
  truncInt (apply_deadzone stick_value deadzone * 100)

/-- The spec's normalizer formula, written from the spec's words for
comparison with `map_stick_to_input`: "if `|raw| < deadzone`, output 0.
Otherwise ... `sign(raw) * ((|raw|-deadzone)/(1-deadzone)) * 100`, truncated
toward zero to an integer." -/
def normalize_spec (raw deadzone : ℚ) : Int :=
  if |raw| < deadzone then 0
  else truncInt ((if 0 < raw then (1:ℚ) else if raw < 0 then -1 else 0)
    * ((|raw| - deadzone) / (1 - deadzone)) * 100)

/-! ### Button handling (`handle_controller_buttons`, lines 106-151) -/

/-- The branch of the `if/elif` chain of `handle_controller_buttons` that
fires, i.e. the first test in source order that holds. -/
inductive ButtonAction where
  | queueTakeoff
  | queueLand
  | queueRotate
  | queueMoveForward
  | queueMoveBack
  | queueMoveLeft
  | queueMoveRight
  | startAutopilot
  | stopAutopilot
  | emergencyStop
  | noAction
  deriving DecidableEq, Repr

/-- The test chain of `handle_controller_buttons` (lines 111-139), in source
order: button 5 takeoff, button 4 land, button 0 rotate, the four hat
directions, button 2 autopilot start (only when not already running),
button 1 autopilot stop, buttons 8/10 emergency. -/
def handle_controller_buttons_action (j : Joystick) (autopilot_running : Bool) :
    ButtonAction :=
  if j.button 5 then .queueTakeoff
  else if j.button 4 then .queueLand
  else if j.button 0 then .queueRotate
  else if j.hat0 = (0, 1) then .queueMoveForward
  else if j.hat0 = (0, -1) then .queueMoveBack
  else if j.hat0 = (-1, 0) then .queueMoveLeft
  else if j.hat0 = (1, 0) then .queueMoveRight
  else if j.button 2 && !autopilot_running then .startAutopilot
  else if j.button 1 then .stopAutopilot
  else if j.button 8 || j.button 10 then .emergencyStop
  else .noAction

/-- Deferred enqueue, as in `self.queue_command(self.drone.takeoff)`: the bound method is enqueued
uninvoked; no vehicle-link call happens at enqueue time. -/
def enqueue_deferred (c : DroneCall) (s : CtrlState) : CtrlState :=
  { s with slot := queue_command (QueuedValue.callable c) s.slot }

/-- Eager enqueue, as in `self.queue_command(self.drone.rotate_clockwise(45))` and the hat-move
branches: Python evaluates the maneuver call *before* `queue_command` runs,
so the vehicle-link call is issued at enqueue time on the calling thread and
only its return value is enqueued. -/
def enqueue_invoked (c : DroneCall) (s : CtrlState) : CtrlState :=
  { s with calls := s.calls ++ [c],
           slot := queue_command (QueuedValue.returnValue c) s.slot }

/-- The body of the selected branch of `handle_controller_buttons`.
The emergency branch (lines 139-149) calls `self.drone.emergency()` inline,
then drains the queue with `get_nowait` (ignoring `queue.Empty`), sets
`emergency_triggered`, and zeroes the four velocity inputs. -/
def apply_button_action : ButtonAction → CtrlState → CtrlState
  | .queueTakeoff, s => enqueue_deferred .takeoff s
  | .queueLand, s => enqueue_deferred .land s
  | .queueRotate, s => enqueue_invoked (.rotate_clockwise 45) s
  | .queueMoveForward, s => enqueue_invoked (.move_forward MOVEMENT_DISTANCE) s
  | .queueMoveBack, s => enqueue_invoked (.move_back MOVEMENT_DISTANCE) s
  | .queueMoveLeft, s => enqueue_invoked (.move_left MOVEMENT_DISTANCE) s
  | .queueMoveRight, s => enqueue_invoked (.move_right MOVEMENT_DISTANCE) s
  | .startAutopilot, s => { s with autopilot_running := true }
  | .stopAutopilot, s => { s with autopilot_running := false }
  | .emergencyStop, s =>
      { s with calls := s.calls ++ [DroneCall.emergency],
               slot := (get_nowait s.slot).2,
               emergency_triggered := true,
               forward_back_input := 0,
               left_right_input := 0,
               up_down_input := 0,
               yaw_input := 0 }
  | .noAction, s => s

/-- Model of `TelloDroneController.handle_controller_buttons` with a connected
controller: run the body of the first branch whose test holds. -/
def handle_controller_buttons (j : Joystick) (s : CtrlState) : CtrlState :=
  apply_button_action (handle_controller_buttons_action j s.autopilot_running) s

/-- Model of `TelloDroneController.update_controller_input` (lines 87-104), success
path: normalize the four stick axes into the velocity inputs. -/
def update_controller_input (j : Joystick) (s : CtrlState) : CtrlState :=
  { s with up_down_input := map_stick_to_input (-(j.axis 1)),
           yaw_input := map_stick_to_input (j.axis 0),
           forward_back_input := map_stick_to_input (-(j.axis 4)),
           left_right_input := map_stick_to_input (j.axis 3) }

/-- One `pygame.USEREVENT + 1` timer event in `handle_events`
(lines 166-175) with a connected controller: update input from the axes,
handle buttons, bump `control_update_counter`, and on every third tick emit
`send_rc_control` with the current velocity inputs (`update_drone_controls`,
lines 561-568) and reset the counter.  Returns the new state, the new
counter, and the setpoint emitted this tick, if any. -/
def control_tick (j : Joystick) (s : CtrlState) (counter : Nat) :
    CtrlState × Nat × Option DroneCall :=
  let s1 := update_controller_input j s
  let s2 := handle_controller_buttons j s1
  let c := counter + 1
  if 3 ≤ c then
    (s2, 0, some (.send_rc_control s2.left_right_input s2.forward_back_input
      s2.up_down_input s2.yaw_input))
  else (s2, c, none)

/-- Model of `TelloDroneController.move` (lines 244-262): each direction evaluates
`self.drone.move_*(MOVEMENT_DISTANCE)` at the call site and passes the
result to `queue_command`; unknown directions only log. -/
def move (direction : String) (s : CtrlState) : CtrlState :=
  match direction with
  | "forward" => enqueue_invoked (.move_forward MOVEMENT_DISTANCE) s
  | "backward" => enqueue_invoked (.move_back MOVEMENT_DISTANCE) s
  | "left" => enqueue_invoked (.move_left MOVEMENT_DISTANCE) s
  | "right" => enqueue_invoked (.move_right MOVEMENT_DISTANCE) s
  | "up" => enqueue_invoked (.move_up MOVEMENT_DISTANCE) s
  | "down" => enqueue_invoked (.move_down MOVEMENT_DISTANCE) s
  | _ => s

/-! ### Command dispatcher (`blocking_command_worker`, lines 460-473) -/

/-- Effect of `command()` in the dispatcher: invoking a still-deferred bound method
performs its maneuver on the vehicle link; "invoking" a value returned by an
already-executed call raises `TypeError`, which the worker's `except` catches
and logs, so no maneuver is performed. -/
def invoke_queued : QueuedValue → Option DroneCall
  | .callable c => some c
  | .returnValue _ => none

/-- One iteration of `blocking_command_worker` after `get(timeout=0.1)`
resolves: on `queue.Empty` nothing changes; on an item, clear
`emergency_triggered`, invoke the item, mark the task done.  Returns the
remaining queue, the new emergency flag, and the vehicle-link maneuver
executed this iteration, if any. -/
def blocking_command_step (slot : List QueuedValue) (emergency_triggered : Bool) :
    List QueuedValue × Bool × Option DroneCall :=
  match slot with
  | [] => ([], emergency_triggered, none)
  | v :: rest => (rest, false, invoke_queued v)

/-! ### Autopilot loop guard (`autopilot_worker`, lines 343-356) -/

/-- The `while` condition of `autopilot_worker`: autopilot flag set, no
emergency, no global stop, and the *sum* of the four velocity inputs equal
to zero. -/
def autopilot_loop_guard (s : CtrlState) (stop_threads : Bool) : Bool :=
  s.autopilot_running && !s.emergency_triggered && !stop_threads &&
    (s.forward_back_input + s.left_right_input + s.up_down_input + s.yaw_input == 0)

/-! ### Vehicle link supervisor (`drone_connection_worker`, lines 381-407) -/

/-- One iteration of the `while not self.stop_threads.is_set()` loop of
`drone_connection_worker`, given whether the whole connect block would
complete without an exception this time (`attempt_ok`).  When already
connected the iteration only sleeps; otherwise it attempts
`connect / set_speed / streamoff / streamon / get_frame_read`, and on any
exception the flag stays false (the failed attempt still issued `connect`).
Returns the new `connected` flag and the vehicle-link calls of this
iteration. -/
def drone_conn_iter (connected : Bool) (attempt_ok : Bool) :
    Bool × List DroneCall :=
  if connected then (true, [])
  else if attempt_ok then
    (true, [.connect, .set_speed DRONE_SPEED, .streamoff, .streamon, .get_frame_read])
  else (false, [.connect])

/-- Run `drone_connection_worker` iterations over a list of environment
outcomes, collecting the final flag and the full vehicle-link call trace. -/
def drone_conn_run (connected : Bool) : List Bool → Bool × List DroneCall
  | [] => (connected, [])
  | e :: es =>
    let step := drone_conn_iter connected e
    let rest := drone_conn_run step.1 es
    (rest.1, step.2 ++ rest.2)

/-! ### Telemetry (`telemetry_worker`, lines 428-458) -/

/-- Model of `self.telemetry_cache` (lines 50-56): initialized to all zeros. -/
structure TelemetrySnapshot where
  battery : Int
  height : Int
  temperature : Int
  flight_time : Int
  total_speed : ℝ

/-- What each blocking telemetry getter would return this cycle, `none`
standing for the call raising. -/
structure TelemetryFetch where
  battery : Option Int
  height : Option Int
  temperature : Option Int
  flight_time : Option Int
  speed_x : Option Int
  speed_y : Option Int
  speed_z : Option Int

/-- One cycle of `telemetry_worker`: the getters run in source order inside
a single `try`, and the cache update runs last inside it, so the cache is
replaced with the fresh values only when every getter succeeded; the first
raising getter aborts the cycle and the whole previous snapshot is kept
(the `except` only logs).  `total_speed` is
`(speed_x**2 + speed_y**2 + speed_z**2) ** 0.5`. -/
noncomputable def telemetry_cycle (f : TelemetryFetch)
    (cache : TelemetrySnapshot) : TelemetrySnapshot :=
  match f.battery, f.height, f.temperature, f.flight_time,
      f.speed_x, f.speed_y, f.speed_z with
  | some b, some h, some t, some ft, some sx, some sy, some sz =>
      { battery := b, height := h, temperature := t, flight_time := ft,
        total_speed := Real.sqrt (((sx^2 + sy^2 + sz^2 : Int) : ℝ)) }
  | _, _, _, _, _, _, _ => cache

/-! ### Threads started and joined (`start_background_threads`, `cleanup`) -/

/-- The worker threads of the controller. -/
inductive WorkerId where
  | telemetry
  | blockingCommand
  | controllerConnection
  | droneConnection
  | autopilot
  deriving DecidableEq, Repr

/-- Threads started by `start_background_threads` (lines 237-240); the
autopilot thread is created there but started only by the button handler. -/
def start_background_threads_started : List WorkerId :=
  [.telemetry, .blockingCommand, .controllerConnection, .droneConnection]

/-- All workers running at shutdown, given whether the autopilot thread was
ever started (button 2). -/
def started_workers (autopilot_started : Bool) : List WorkerId :=
  start_background_threads_started ++ if autopilot_started then [.autopilot] else []

/-- The thread list `cleanup` joins (lines 209-216). -/
def cleanup_joined : List WorkerId :=
  [.telemetry, .blockingCommand, .controllerConnection, .droneConnection]

/-- Timeout of `thread.join(timeout=1)` in `cleanup`, in seconds. -/
def cleanup_join_timeout : ℚ := 1

/-- The longest wait a worker performs between two checks of
`stop_threads`: telemetry sleeps 0.5 s, the dispatcher waits on the queue
with timeout 0.1 s, the controller monitor sleeps 0.1 s (plus a 0.5 s settle
on attach), the connection worker sleeps 0.5 s once connected, and the
autopilot cools down 10 s between cycles. -/
def worker_poll_interval : WorkerId → ℚ
  | .telemetry => 1/2
  | .blockingCommand => 1/10
  | .controllerConnection => 1/2 + 1/10
  | .droneConnection => 1/2
  | .autopilot => 10

/-- Every worker loop's guard is `while not self.stop_threads.is_set()`
(the autopilot's guard conjoins further conditions but also includes it):
with the stop signal set, no worker starts another iteration. -/
def worker_loop_continues (stop_threads : Bool) : Bool := !stop_threads

/-! ### Basic queue lemmas -/

theorem get_nowait_nil : get_nowait ([] : List α) = (none, []) := rfl

theorem get_nowait_cons (x : α) (xs : List α) :
    get_nowait (x :: xs) = (some x, xs) := rfl

theorem queue_command_eq (c : α) (q : List α) (h : q.length ≤ 1) :
    queue_command c q = [c] := by
  match q with
  | [] => rfl
  | [x] => rfl
  | x :: y :: ys => simp at h

theorem get_nowait_snd_length (q : List α) :
    (get_nowait q).2.length = q.length - 1 := by
  match q with
  | [] => rfl
  | x :: xs => simp [get_nowait]

/-- C1 core fact as a reusable lemma: draining a slot that respects the
capacity invariant leaves it empty, so the subsequent `put` cannot block. -/
theorem drain_not_blocks (q : List α) (h : q.length ≤ QUEUE_CAPACITY) :
    ¬ put_blocks (get_nowait q).2 := by
  simp only [put_blocks, QUEUE_CAPACITY] at h ⊢
  rw [get_nowait_snd_length]
  omega

/-- Claim C1: the CommandSlot holds at most one pending command: from any
slot state satisfying the capacity invariant with command `A` pending and
unconsumed, `queue_command B` leaves exactly the single pending command `B`;
`A` is not in the slot afterwards, so no later consumer take can deliver it;
the resulting occupancy is exactly 1 (never exceeding capacity), and the
`put` step never blocks because the slot was drained first. -/
theorem C1_command_slot_latest_wins (A B : QueuedValue) (q : List QueuedValue)
    (hq : q = [A]) (hAB : A ≠ B) :
    queue_command B q = [B] ∧
    A ∉ queue_command B q ∧
    (queue_command B q).length = 1 ∧
    ¬ put_blocks (get_nowait q).2 ∧
    (∀ q' : List QueuedValue, q'.length ≤ QUEUE_CAPACITY →
      (queue_command B q').length ≤ QUEUE_CAPACITY ∧ ¬ put_blocks (get_nowait q').2) := by
  subst hq
  refine ⟨rfl, ?_, rfl, drain_not_blocks _ (by simp [QUEUE_CAPACITY]), ?_⟩
  · simp [queue_command, put, get_nowait]
    exact fun h => hAB h
  · intro q' hq'
    refine ⟨?_, drain_not_blocks _ hq'⟩
    unfold QUEUE_CAPACITY at hq' ⊢
    match q' with
    | [] => simp [queue_command, put, get_nowait]
    | [x] => simp [queue_command, put, get_nowait]
    | x :: y :: ys => simp at hq'

/-! ### Normalizer lemmas -/

theorem truncInt_of_nonneg {q : ℚ} (h : 0 ≤ q) : truncInt q = ⌊q⌋ := by
  unfold truncInt
  rw [if_neg (not_lt.mpr h)]

theorem apply_deadzone_of_small {value deadzone : ℚ} (h : |value| ≤ deadzone) :
    apply_deadzone value deadzone = 0 := by
  unfold apply_deadzone
  rcases lt_or_eq_of_le h with h' | h'
  · rw [if_pos h']
  · rw [if_neg (by rw [h'] at *; exact lt_irrefl _), h', sub_self, zero_div, mul_zero]

theorem truncInt_bounds {q : ℚ} {n : ℕ} (h1 : -(n:ℚ) ≤ q) (h2 : q ≤ n) :
    -(n:ℤ) ≤ truncInt q ∧ truncInt q ≤ n := by
  unfold truncInt
  split
  case isTrue h =>
    have hub : ⌊-q⌋ ≤ (n:ℤ) := by
      have : ⌊-q⌋ ≤ ⌊(n:ℚ)⌋ := Int.floor_le_floor (by linarith)
      rwa [Int.floor_natCast] at this
    have hlb : (0:ℤ) ≤ ⌊-q⌋ := Int.floor_nonneg.mpr (by linarith)
    omega
  case isFalse h =>
    have hub : ⌊q⌋ ≤ (n:ℤ) := by
      have : ⌊q⌋ ≤ ⌊(n:ℚ)⌋ := Int.floor_le_floor h2
      rwa [Int.floor_natCast] at this
    have hlb : (0:ℤ) ≤ ⌊q⌋ := Int.floor_nonneg.mpr (by linarith)
    omega

theorem apply_deadzone_bounds {raw deadzone : ℚ}
    (hr : |raw| ≤ 1) (hd1 : deadzone < 1) :
    -1 ≤ apply_deadzone raw deadzone ∧ apply_deadzone raw deadzone ≤ 1 := by
  unfold apply_deadzone
  split
  · norm_num
  case isFalse h =>
    have hpos : (0:ℚ) < 1 - deadzone := by linarith
    have hm0 : 0 ≤ (|raw| - deadzone) / (1 - deadzone) :=
      div_nonneg (by linarith [not_lt.mp h]) hpos.le
    have hm1 : (|raw| - deadzone) / (1 - deadzone) ≤ 1 := by
      rw [div_le_one hpos]; linarith
    split <;> constructor <;> nlinarith

/-- Claim C8: for every raw input in `[-1,1]` and deadzone in `[0,1)`:
the code's normalizer agrees with the spec's formula
`sign(raw) * ((|raw|-deadzone)/(1-deadzone)) * 100` truncated toward zero
(with output 0 below the deadzone); on or below the deadzone boundary the
result is exactly 0; at `raw = 1.0` it is exactly 100 and at `raw = -1.0`
exactly -100. -/
theorem C8_normalizer (raw deadzone : ℚ)
    (hr1 : -1 ≤ raw) (hr2 : raw ≤ 1) (hd0 : 0 ≤ deadzone) (hd1 : deadzone < 1) :
    map_stick_to_input raw deadzone = normalize_spec raw deadzone ∧
    (|raw| ≤ deadzone → map_stick_to_input raw deadzone = 0) ∧
    (raw = 1 → map_stick_to_input raw deadzone = 100) ∧
    (raw = -1 → map_stick_to_input raw deadzone = -100) := by
  have hdz : (1:ℚ) - deadzone ≠ 0 := sub_ne_zero.mpr (ne_of_gt hd1)
  refine ⟨?_, ?_, ?_, ?_⟩
  · unfold map_stick_to_input normalize_spec apply_deadzone
    by_cases hlt : |raw| < deadzone
    · rw [if_pos hlt, if_pos hlt, zero_mul]
      simp [truncInt]
    · rw [if_neg hlt, if_neg hlt]
      rcases lt_trichotomy raw 0 with h | h | h
      · rw [if_neg (by linarith), if_neg (by linarith), if_pos h]
      · subst h
        have : deadzone = 0 := by
          simp only [abs_zero, not_lt] at hlt
          linarith
        subst this
        norm_num
      · rw [if_pos h, if_pos h]
  · intro h
    unfold map_stick_to_input
    rw [apply_deadzone_of_small h, zero_mul]
    simp [truncInt]
  · intro h
    subst h
    unfold map_stick_to_input apply_deadzone
    rw [if_neg (by rw [abs_one]; exact not_lt.mpr hd1.le), abs_one, if_pos one_pos,
      div_self hdz, one_mul, one_mul]
    rw [truncInt_of_nonneg (by norm_num)]
    norm_num
  · intro h
    subst h
    unfold map_stick_to_input apply_deadzone
    rw [if_neg (by rw [abs_neg, abs_one]; exact not_lt.mpr hd1.le), abs_neg, abs_one,
      if_neg (by norm_num), div_self hdz]
    norm_num [truncInt]

/-- Witness for C8 at concrete inputs, together with the spec's worked
example: raw 0.5 with deadzone 0.05 normalizes to 47. -/
theorem C8_normalizer_witness :
    map_stick_to_input (1/2) (1/20) = normalize_spec (1/2) (1/20) ∧
    map_stick_to_input 1 (1/20) = 100 ∧
    map_stick_to_input (-1) (1/20) = -100 ∧
    map_stick_to_input (1/20) (1/20) = 0 ∧
    map_stick_to_input (1/2) (1/20) = 47 := by
  have h1 := C8_normalizer (1/2) (1/20) (by norm_num) (by norm_num) (by norm_num)
    (by norm_num)
  have h2 := C8_normalizer 1 (1/20) (by norm_num) (by norm_num) (by norm_num)
    (by norm_num)
  have h3 := C8_normalizer (-1) (1/20) (by norm_num) (by norm_num) (by norm_num)
    (by norm_num)
  have h4 := C8_normalizer (1/20) (1/20) (by norm_num) (by norm_num) (by norm_num)
    (by norm_num)
  refine ⟨h1.1, h2.2.2.1 rfl, h3.2.2.2 rfl, h4.2.1 (by norm_num [abs_of_pos]), ?_⟩
  norm_num [map_stick_to_input, apply_deadzone, truncInt, abs_of_pos]

/-- Claim C9 counterexample: the claim says inputs outside `[-1,1]` are
clamped before scaling so that every result lies in `[-100,100]`; but at raw
input 2 with the source's deadzone 0.1 the code returns 211, which exceeds
100 — no clamping happens. -/
theorem C9_no_clamping_counterexample :
    map_stick_to_input 2 STICK_DEADZONE = 211 ∧ ¬ ((211:ℤ) ≤ 100) := by
  constructor
  · norm_num [map_stick_to_input, apply_deadzone, truncInt, STICK_DEADZONE, abs_of_pos]
  · decide

/-- Claim C9 amended: the normalizer is a total function (no error path) for
every rational input, but no clamping is applied: the guarantee
`map_stick_to_input raw deadzone ∈ [-100,100]` holds for raw inputs already
in `[-1,1]` (for any deadzone in `[0,1)`), while inputs outside `[-1,1]`
can produce results of magnitude above 100. -/
theorem C9_normalizer_range (raw deadzone : ℚ)
    (hr1 : -1 ≤ raw) (hr2 : raw ≤ 1) (hd0 : 0 ≤ deadzone) (hd1 : deadzone < 1) :
    -100 ≤ map_stick_to_input raw deadzone ∧ map_stick_to_input raw deadzone ≤ 100 := by
  have hb := apply_deadzone_bounds (abs_le.mpr ⟨hr1, hr2⟩) hd1
  unfold map_stick_to_input
  have h := truncInt_bounds (q := apply_deadzone raw deadzone * 100) (n := 100)
    (by push_cast; nlinarith [hb.1]) (by push_cast; nlinarith [hb.2])
  exact_mod_cast h

/-- Witness for the amended C9 at a concrete in-range input. -/
theorem C9_normalizer_range_witness :
    -100 ≤ map_stick_to_input (3/4) STICK_DEADZONE ∧
    map_stick_to_input (3/4) STICK_DEADZONE ≤ 100 :=
  C9_normalizer_range (3/4) STICK_DEADZONE (by norm_num) (by norm_num)
    (by norm_num [STICK_DEADZONE]) (by norm_num [STICK_DEADZONE])

/-- Witness for C1 at a concrete slot state. -/
theorem C1_command_slot_latest_wins_witness :
    queue_command (QueuedValue.callable DroneCall.land)
        [QueuedValue.callable DroneCall.takeoff] =
      [QueuedValue.callable DroneCall.land] ∧
    QueuedValue.callable DroneCall.takeoff ∉
      queue_command (QueuedValue.callable DroneCall.land)
        [QueuedValue.callable DroneCall.takeoff] := by
  have h := C1_command_slot_latest_wins (QueuedValue.callable DroneCall.takeoff)
    (QueuedValue.callable DroneCall.land) [QueuedValue.callable DroneCall.takeoff]
    rfl (by decide)
  exact ⟨h.1, h.2.1⟩

set_option maxHeartbeats 2000000 in
/-- Claim C10: in a single invocation of the button handler exactly one
branch fires, selected by the fixed source order takeoff, land, rotate, the
four hat moves, autopilot start, autopilot stop, emergency last; the theorem
characterizes the selected branch for the leading actions and shows that an
emergency press is not acted on whenever any higher-priority test holds. -/
theorem C10_button_priority (j : Joystick) (ar : Bool) :
    (handle_controller_buttons_action j ar = .queueTakeoff ↔ j.button 5 = true) ∧
    (handle_controller_buttons_action j ar = .queueLand ↔
      (j.button 5 = false ∧ j.button 4 = true)) ∧
    (handle_controller_buttons_action j ar = .queueRotate ↔
      (j.button 5 = false ∧ j.button 4 = false ∧ j.button 0 = true)) ∧
    (handle_controller_buttons_action j ar = .emergencyStop ↔
      ((j.button 8 = true ∨ j.button 10 = true) ∧
       j.button 5 = false ∧ j.button 4 = false ∧ j.button 0 = false ∧
       j.hat0 ≠ (0,1) ∧ j.hat0 ≠ (0,-1) ∧ j.hat0 ≠ (-1,0) ∧ j.hat0 ≠ (1,0) ∧
       ¬(j.button 2 = true ∧ ar = false) ∧ j.button 1 = false)) ∧
    ((j.button 8 = true ∨ j.button 10 = true) →
      (j.button 5 = true ∨ j.button 4 = true ∨ j.button 0 = true ∨
       j.hat0 = (0,1) ∨ j.hat0 = (0,-1) ∨ j.hat0 = (-1,0) ∨ j.hat0 = (1,0) ∨
       (j.button 2 = true ∧ ar = false) ∨ j.button 1 = true) →
      handle_controller_buttons_action j ar ≠ .emergencyStop) := by
  unfold handle_controller_buttons_action
  split_ifs <;> simp_all

/-- Witness for C10: with takeoff (button 5) and emergency (button 8)
pressed in the same tick, takeoff is selected and the emergency action is
not performed. -/
theorem C10_button_priority_witness :
    handle_controller_buttons_action
      ⟨fun n => n == 5 || n == 8, (0,0), fun _ => 0⟩ false = .queueTakeoff ∧
    handle_controller_buttons_action
      ⟨fun n => n == 5 || n == 8, (0,0), fun _ => 0⟩ false ≠ .emergencyStop := by
  have h := C10_button_priority ⟨fun n => n == 5 || n == 8, (0,0), fun _ => 0⟩ false
  exact ⟨h.1.mpr rfl, h.2.2.2.2 (Or.inl rfl) (Or.inl rfl)⟩

/-- Claim C2 counterexample: at a state with a stale takeoff pending and an
emergency button press, the handler leaves the CommandSlot empty — no
emergency maneuver is submitted through the Command Dispatcher — and the
emergency call appears in the handler's own inline vehicle-link trace,
contradicting the claim that the maneuver is dispatched rather than invoked
inline. -/
theorem C2_counterexample_inline_emergency :
    (handle_controller_buttons ⟨fun n => n == 8, (0,0), fun _ => 0⟩
      ⟨47, -12, 5, 9, false, false, [QueuedValue.callable DroneCall.takeoff], []⟩).slot
      = [] ∧
    (handle_controller_buttons ⟨fun n => n == 8, (0,0), fun _ => 0⟩
      ⟨47, -12, 5, 9, false, false, [QueuedValue.callable DroneCall.takeoff], []⟩).calls
      = [DroneCall.emergency] := by
  exact ⟨rfl, rfl⟩

/-- Claim C2 amended: when the emergency branch is selected, the handler
synchronously zeroes all four VelocityVector fields, drains any stale
pending ManeuverCommand from the CommandSlot (leaving it empty under the
capacity invariant), sets the emergency flag, and invokes the emergency
maneuver inline on the vehicle link — nothing is submitted through the
Command Dispatcher; any continuous setpoint emitted on the same tick sends
all zeros. -/
theorem C2_emergency_handler (j : Joystick) (s : CtrlState)
    (hsel : handle_controller_buttons_action j s.autopilot_running = .emergencyStop) :
    ((handle_controller_buttons j s).forward_back_input = 0 ∧
     (handle_controller_buttons j s).left_right_input = 0 ∧
     (handle_controller_buttons j s).up_down_input = 0 ∧
     (handle_controller_buttons j s).yaw_input = 0) ∧
    (handle_controller_buttons j s).slot = (get_nowait s.slot).2 ∧
    (s.slot.length ≤ QUEUE_CAPACITY → (handle_controller_buttons j s).slot = []) ∧
    (handle_controller_buttons j s).calls = s.calls ++ [DroneCall.emergency] ∧
    (handle_controller_buttons j s).emergency_triggered = true ∧
    (∀ counter : Nat, 2 ≤ counter →
      (control_tick j s counter).2.2 =
        some (DroneCall.send_rc_control 0 0 0 0)) := by
  unfold handle_controller_buttons
  rw [hsel]
  refine ⟨⟨rfl, rfl, rfl, rfl⟩, rfl, ?_, rfl, rfl, ?_⟩
  · intro h
    simp only [apply_button_action]
    have hlen : ((get_nowait s.slot).2).length = 0 := by
      rw [get_nowait_snd_length]
      unfold QUEUE_CAPACITY at h
      omega
    exact List.length_eq_zero.mp hlen
  · intro counter hc
    unfold control_tick
    have hsel' : handle_controller_buttons_action j
        (update_controller_input j s).autopilot_running = .emergencyStop := hsel
    simp only [handle_controller_buttons, hsel', apply_button_action]
    rw [if_pos (by omega)]

/-- Witness for the amended C2 at a concrete joystick (button 10) and state
with a stale land command pending. -/
theorem C2_emergency_handler_witness :
    (handle_controller_buttons ⟨fun n => n == 10, (0,0), fun _ => 0⟩
      ⟨1, 2, 3, 4, false, false, [QueuedValue.callable DroneCall.land], []⟩).forward_back_input
      = 0 ∧
    (handle_controller_buttons ⟨fun n => n == 10, (0,0), fun _ => 0⟩
      ⟨1, 2, 3, 4, false, false, [QueuedValue.callable DroneCall.land], []⟩).slot = [] ∧
    (handle_controller_buttons ⟨fun n => n == 10, (0,0), fun _ => 0⟩
      ⟨1, 2, 3, 4, false, false, [QueuedValue.callable DroneCall.land], []⟩).calls
      = [DroneCall.emergency] ∧
    (handle_controller_buttons ⟨fun n => n == 10, (0,0), fun _ => 0⟩
      ⟨1, 2, 3, 4, false, false, [QueuedValue.callable DroneCall.land], []⟩).emergency_triggered
      = true := by
  have h := C2_emergency_handler ⟨fun n => n == 10, (0,0), fun _ => 0⟩
    ⟨1, 2, 3, 4, false, false, [QueuedValue.callable DroneCall.land], []⟩ rfl
  exact ⟨h.1.1, h.2.2.1 (by decide), h.2.2.2.1, h.2.2.2.2.1⟩

/-- Claim C3: evaluation of the code at a failing input.  Pressing button 0
(rotate) makes the *enqueue path itself* issue the vehicle-link call
`rotate_clockwise(45)` on the control-tick thread and enqueue only its
return value; the dispatcher's later `command()` invocation of that
non-callable value raises and executes no maneuver.  By contrast takeoff
(button 5) follows the intended deferred pattern: nothing is called at
enqueue time and the dispatcher performs the maneuver.  The autopilot-facing
`move` wrapper has the same eager-call defect. -/
theorem C3_enqueue_not_deferred :
    (handle_controller_buttons ⟨fun n => n == 0, (0,0), fun _ => 0⟩
      ⟨0,0,0,0,false,false,[],[]⟩).calls = [DroneCall.rotate_clockwise 45] ∧
    (handle_controller_buttons ⟨fun n => n == 0, (0,0), fun _ => 0⟩
      ⟨0,0,0,0,false,false,[],[]⟩).slot =
      [QueuedValue.returnValue (DroneCall.rotate_clockwise 45)] ∧
    invoke_queued (QueuedValue.returnValue (DroneCall.rotate_clockwise 45)) = none ∧
    blocking_command_step [QueuedValue.returnValue (DroneCall.rotate_clockwise 45)] false =
      ([], false, none) ∧
    (handle_controller_buttons ⟨fun n => n == 5, (0,0), fun _ => 0⟩
      ⟨0,0,0,0,false,false,[],[]⟩).calls = [] ∧
    (handle_controller_buttons ⟨fun n => n == 5, (0,0), fun _ => 0⟩
      ⟨0,0,0,0,false,false,[],[]⟩).slot = [QueuedValue.callable DroneCall.takeoff] ∧
    invoke_queued (QueuedValue.callable DroneCall.takeoff) = some DroneCall.takeoff ∧
    (move "forward" ⟨0,0,0,0,false,false,[],[]⟩).calls =
      [DroneCall.move_forward MOVEMENT_DISTANCE] := by
  refine ⟨rfl, rfl, rfl, rfl, rfl, rfl, rfl, rfl⟩

/-- Claim C4 counterexample: with forward/back at 50 and left/right at -50
(both axes non-zero) the autopilot loop guard still evaluates to true,
because the code tests `sum(axes) == 0` rather than each axis — the claim
that the loop continues only when every axis is zero is false. -/
theorem C4_counterexample_sum_cancellation :
    autopilot_loop_guard ⟨50, -50, 0, 0, false, true, [], []⟩ false = true ∧
    ¬ ((50:Int) = 0 ∧ (-50:Int) = 0 ∧ (0:Int) = 0 ∧ (0:Int) = 0) := by
  exact ⟨rfl, by simp⟩

/-- Claim C4 amended: the autopilot loop guard holds exactly when the
autopilot flag is set, emergency has not fired, the global stop signal is
clear, and the *sum* of the four velocity axes is zero (so equal-and-opposite
manual inputs can cancel); in particular when exactly one axis becomes
non-zero, or emergency/stop fires, or the flag is cleared, the guard is
false and the loop issues no further directives. -/
theorem C4_autopilot_guard (s : CtrlState) (stop_threads : Bool) :
    (autopilot_loop_guard s stop_threads = true ↔
      (s.autopilot_running = true ∧ s.emergency_triggered = false ∧
       stop_threads = false ∧
       s.forward_back_input + s.left_right_input + s.up_down_input + s.yaw_input = 0)) ∧
    ((s.left_right_input = 0 ∧ s.up_down_input = 0 ∧ s.yaw_input = 0 ∧
      s.forward_back_input ≠ 0) → autopilot_loop_guard s stop_threads = false) := by
  constructor
  · unfold autopilot_loop_guard
    simp only [Bool.and_eq_true, Bool.not_eq_true', beq_iff_eq]
    tauto
  · rintro ⟨h1, h2, h3, h4⟩
    unfold autopilot_loop_guard
    rw [h1, h2, h3]
    simp
    intro _ _ _
    omega

/-- Witness for the amended C4: a manual override on the single
forward/back axis makes the guard false. -/
theorem C4_autopilot_guard_witness :
    autopilot_loop_guard ⟨7, 0, 0, 0, false, true, [], []⟩ false = false := by
  have h := C4_autopilot_guard ⟨7, 0, 0, 0, false, true, [], []⟩ false
  exact h.2 ⟨rfl, rfl, rfl, by decide⟩

/-- Claim C5 counterexample: with the axis-speed fetch failing while every
other fetch succeeds (fresh battery 2 against cached battery 1, cached
composite speed 7), the cycle keeps the entire previous snapshot: battery is
not updated to the freshly fetched 2 and composite speed does not fall back
to 0 — contradicting the claim's per-field retention and zero fallback. -/
theorem C5_counterexample_all_or_nothing :
    telemetry_cycle ⟨some 2, some 3, some 4, some 5, none, some 6, some 7⟩
        ⟨1, 0, 0, 0, (7:ℝ)⟩ = ⟨1, 0, 0, 0, (7:ℝ)⟩ ∧
    (telemetry_cycle ⟨some 2, some 3, some 4, some 5, none, some 6, some 7⟩
        ⟨1, 0, 0, 0, (7:ℝ)⟩).battery ≠ 2 ∧
    (telemetry_cycle ⟨some 2, some 3, some 4, some 5, none, some 6, some 7⟩
        ⟨1, 0, 0, 0, (7:ℝ)⟩).total_speed ≠ 0 := by
  refine ⟨rfl, by decide, ?_⟩
  show (7:ℝ) ≠ 0
  norm_num

/-- Claim C5 amended: a telemetry cycle is all-or-nothing.  When every fetch
succeeds the snapshot is replaced with the fresh values and composite speed
is the Euclidean norm of the three axis speeds (axis speeds (3,4,0) give
exactly 5); when any single fetch fails the whole previous snapshot is
retained unchanged (no per-field update, no zero fallback); in every case
the cycle completes without crashing, returning one of the two snapshots. -/
theorem C5_telemetry_cycle (f : TelemetryFetch) (cache : TelemetrySnapshot) :
    (∀ b h t ft sx sy sz,
      f = ⟨some b, some h, some t, some ft, some sx, some sy, some sz⟩ →
      telemetry_cycle f cache =
        ⟨b, h, t, ft, Real.sqrt (((sx^2 + sy^2 + sz^2 : Int) : ℝ))⟩) ∧
    ((f.battery = none ∨ f.height = none ∨ f.temperature = none ∨
      f.flight_time = none ∨ f.speed_x = none ∨ f.speed_y = none ∨
      f.speed_z = none) → telemetry_cycle f cache = cache) ∧
    (∀ b h t ft,
      (telemetry_cycle ⟨some b, some h, some t, some ft, some 3, some 4, some 0⟩
        cache).total_speed = 5) := by
  refine ⟨?_, ?_, ?_⟩
  · rintro b h t ft sx sy sz rfl
    rfl
  · intro hnone
    obtain ⟨fb, fh, ftp, fft, fx, fy, fz⟩ := f
    rcases fb with _ | b <;> rcases fh with _ | h <;> rcases ftp with _ | t <;>
      rcases fft with _ | ft <;> rcases fx with _ | x <;> rcases fy with _ | y <;>
      rcases fz with _ | z <;> first
        | rfl
        | simp_all
  · intro b h t ft
    show Real.sqrt (((3^2 + 4^2 + 0^2 : Int) : ℝ)) = 5
    rw [show ((3^2 + 4^2 + 0^2 : Int) : ℝ) = 25 by norm_num,
      show (25:ℝ) = 5^2 by norm_num, Real.sqrt_sq (by norm_num : (0:ℝ) ≤ 5)]

/-- Witness for the amended C5: a fully successful cycle with axis speeds
(3,4,0) stores composite speed 5, and a cycle whose battery fetch fails
keeps the zero-initialized cache. -/
theorem C5_telemetry_cycle_witness :
    telemetry_cycle ⟨some 9, some 8, some 7, some 6, some 3, some 4, some 0⟩
        ⟨0, 0, 0, 0, (0:ℝ)⟩ =
      ⟨9, 8, 7, 6, Real.sqrt (((3^2 + 4^2 + 0^2 : Int) : ℝ))⟩ ∧
    (telemetry_cycle ⟨some 9, some 8, some 7, some 6, some 3, some 4, some 0⟩
        ⟨0, 0, 0, 0, (0:ℝ)⟩).total_speed = 5 ∧
    telemetry_cycle ⟨none, some 1, some 1, some 1, some 1, some 1, some 1⟩
        ⟨0, 0, 0, 0, (0:ℝ)⟩ = ⟨0, 0, 0, 0, (0:ℝ)⟩ := by
  have h1 := C5_telemetry_cycle
    ⟨some 9, some 8, some 7, some 6, some 3, some 4, some 0⟩ ⟨0, 0, 0, 0, (0:ℝ)⟩
  have h2 := C5_telemetry_cycle
    ⟨none, some 1, some 1, some 1, some 1, some 1, some 1⟩ ⟨0, 0, 0, 0, (0:ℝ)⟩
  exact ⟨h1.1 9 8 7 6 3 4 0 rfl, h1.2.2 9 8 7 6, h2.2.1 (Or.inl rfl)⟩

/-- Claim C6: connect attempts happen only while the link has never yet been
connected.  Once `connected` is true the supervisor performs no further
vehicle-link calls at all for any remaining iterations (the flag is one-way;
there is no transition back, so a mid-session drop never triggers
reconnection); an iteration's trace contains `connect` only from the
not-yet-connected state; the first successful attempt performs exactly
connect, set-speed, stream restart, and frame-reader publication; and a run
that fails `n` times before the first success issues `n` bare retries
followed by the one successful setup, then goes idle. -/
theorem C6_connect_only_until_connected (envs : List Bool) (c e : Bool) :
    drone_conn_run true envs = (true, []) ∧
    (DroneCall.connect ∈ (drone_conn_iter c e).2 → c = false) ∧
    drone_conn_iter false true =
      (true, [.connect, .set_speed DRONE_SPEED, .streamoff, .streamon, .get_frame_read]) ∧
    (drone_conn_iter c e).1 = (c || e) ∧
    (∀ n : Nat, ∀ post : List Bool,
      drone_conn_run false (List.replicate n false ++ true :: post) =
        (true, List.replicate n DroneCall.connect ++
          [.connect, .set_speed DRONE_SPEED, .streamoff, .streamon, .get_frame_read])) := by
  refine ⟨?_, ?_, rfl, ?_, ?_⟩
  · induction envs with
    | nil => rfl
    | cons e' es ih => simp [drone_conn_run, drone_conn_iter, ih]
  · cases c
    · intro _; rfl
    · intro h; simp [drone_conn_iter] at h
  · cases c <;> cases e <;> rfl
  · intro n
    induction n with
    | zero =>
      intro post
      have hrun : drone_conn_run true post = (true, []) := by
        induction post with
        | nil => rfl
        | cons p ps ihp => simp [drone_conn_run, drone_conn_iter, ihp]
      simp [drone_conn_run, drone_conn_iter, hrun]
    | succ m ihm =>
      intro post
      simp [List.replicate_succ, drone_conn_run, drone_conn_iter, ihm post]

/-- Witness for C6: from the connected state nothing further happens over a
concrete run, and two failed attempts before success produce exactly two
bare retries, the full setup sequence, and then idleness. -/
theorem C6_connect_only_until_connected_witness :
    drone_conn_run true [false, true, false] = (true, []) ∧
    drone_conn_run false (List.replicate 2 false ++ true :: [true, false]) =
      (true, List.replicate 2 DroneCall.connect ++
        [.connect, .set_speed DRONE_SPEED, .streamoff, .streamon, .get_frame_read]) := by
  have h := C6_connect_only_until_connected [false, true, false] true false
  exact ⟨h.1, h.2.2.2.2 2 [true, false]⟩

/-- Claim C7 counterexample: the autopilot worker is a supervised worker
once started (button 2), but `cleanup` joins only the four
always-started workers — the autopilot thread is never joined, so the join
is not exhaustive over every supervised worker the orchestrator started. -/
theorem C7_counterexample_autopilot_not_joined :
    WorkerId.autopilot ∈ started_workers true ∧
    WorkerId.autopilot ∉ cleanup_joined := by
  decide

/-- Claim C7 amended: after raising the shared stop signal, `cleanup` joins
exactly the four workers started by `start_background_threads`, each with a
bounded 1-second timeout that exceeds that worker's poll/retry interval, and
every worker loop's guard observes the stop signal; the autopilot worker,
when started, is not joined (and its 10-second cooldown exceeds the join
bound). -/
theorem C7_cleanup_joins (w : WorkerId) :
    cleanup_joined = start_background_threads_started ∧
    (w ∈ cleanup_joined → w ∈ started_workers true) ∧
    (w ∈ cleanup_joined → worker_poll_interval w ≤ cleanup_join_timeout) ∧
    worker_loop_continues true = false ∧
    WorkerId.autopilot ∉ cleanup_joined ∧
    ¬ (worker_poll_interval WorkerId.autopilot ≤ cleanup_join_timeout) := by
  refine ⟨rfl, ?_, ?_, rfl, by decide, ?_⟩
  · cases w <;> decide
  · intro hw
    cases w
    case telemetry => norm_num [worker_poll_interval, cleanup_join_timeout]
    case blockingCommand => norm_num [worker_poll_interval, cleanup_join_timeout]
    case controllerConnection => norm_num [worker_poll_interval, cleanup_join_timeout]
    case droneConnection => norm_num [worker_poll_interval, cleanup_join_timeout]
    case autopilot => exact absurd hw (by decide)
  · norm_num [worker_poll_interval, cleanup_join_timeout]

/-- Witness for the amended C7 at the telemetry worker. -/
theorem C7_cleanup_joins_witness :
    WorkerId.telemetry ∈ started_workers true ∧
    worker_poll_interval WorkerId.telemetry ≤ cleanup_join_timeout := by
  have h := C7_cleanup_joins WorkerId.telemetry
  exact ⟨h.2.1 (by decide), h.2.2.1 (by decide)⟩

end Tello
